import Mathlib

/-!
Shallow embedding of `src/thermodynamics/make_component_table.py`.

The script builds a temperature grid, issues one NIST WebBook query per
temperature (an isothermal pressure sweep), parses the response into
parallel arrays, removes duplicate samples at phase boundaries, rescales
viscosity and enthalpy, and writes one output row per surviving sample.

Numeric values (Python floats) are modelled as rationals `ℚ`; Python ints
(`n_temp`, `n_press`) as `Int`.  The external service is modelled as an
oracle `fetch : ℚ → IsothermResponse` giving the parsed response for a
queried temperature.
-/

namespace MakeComponentTable

/-- Model of `np.delete(xs, idxs)`: drop the elements of `xs` whose position
occurs in `idxs` (a duplicated position is dropped once), keeping order.
The counter argument tracks the absolute position of the head of the list. -/
def npDeleteAux {α : Type} (idxs : List Nat) : Nat → List α → List α
  | _, [] => []
  | i, x :: xs => if i ∈ idxs then npDeleteAux idxs (i + 1) xs
                  else x :: npDeleteAux idxs (i + 1) xs

/-- `np.delete(xs, idxs)` as used by the script on the parsed value arrays. -/
def npDelete {α : Type} (xs : List α) (idxs : List Nat) : List α :=
  npDeleteAux idxs 0 xs

/-- The script's phase-boundary scan (lines 130-134):
`for j in range(1, len(phase) - 1): if phase[j] != phase[j+1]:
phaseBoundaryIndices += [j, j + 1]`. -/
def phaseBoundaryIndices (phase : List String) : List Nat :=
  (List.range' 1 (phase.length - 2)).flatMap
    (fun j => if phase.getD j "" ≠ phase.getD (j + 1) "" then [j, j + 1] else [])

lemma npDeleteAux_eq_filter_range {α : Type} (idxs : List Nat) (d : α) (xs : List α) :
    ∀ s : Nat, npDeleteAux idxs s xs =
      ((List.range xs.length).filter (fun j => decide ((s + j) ∉ idxs))).map
        (fun j => xs.getD j d) := by
  induction xs with
  | nil => intro s; simp [npDeleteAux]
  | cons x xs ih =>
    intro s
    have hp : ((fun j => decide ((s + j) ∉ idxs)) ∘ Nat.succ)
        = (fun j => decide ((s + 1 + j) ∉ idxs)) := by
      funext j
      show decide ((s + (j + 1)) ∉ idxs) = decide ((s + 1 + j) ∉ idxs)
      rw [show s + (j + 1) = s + 1 + j by omega]
    have hm : ((fun j => (x :: xs).getD j d) ∘ Nat.succ) = (fun j => xs.getD j d) := by
      funext j
      simp [List.getD_cons_succ]
    rw [npDeleteAux, List.length_cons, List.range_succ_eq_map, List.filter_cons]
    by_cases h : s ∈ idxs
    · rw [if_pos h, ih (s + 1)]
      simp only [Nat.add_zero, h, not_true_eq_false, decide_False, Bool.false_eq_true,
        if_false, List.filter_map, List.map_map, hp, hm]
    · rw [if_neg h, ih (s + 1)]
      simp only [Nat.add_zero, h, not_false_eq_true, decide_True, if_true,
        List.filter_map, List.map_map, hp, hm, List.map_cons, List.getD_cons_zero]

/-- Characterization of `np.delete`: the survivors are exactly the entries at
positions not listed in `idxs`, in their original order.  The default `d` is
irrelevant since only in-range positions are consulted. -/
lemma npDelete_eq_filter_range {α : Type} (xs : List α) (idxs : List Nat) (d : α) :
    npDelete xs idxs =
      ((List.range xs.length).filter (fun j => decide (j ∉ idxs))).map
        (fun j => xs.getD j d) := by
  rw [npDelete, npDeleteAux_eq_filter_range idxs d xs 0]
  simp

lemma npDelete_nil_idxs {α : Type} (xs : List α) : npDelete xs [] = xs := by
  have h : ∀ (ys : List α) (s : Nat), npDeleteAux ([] : List Nat) s ys = ys := by
    intro ys
    induction ys with
    | nil => intro s; rfl
    | cons y ys ih => intro s; simp [npDeleteAux, ih]
  exact h xs 0

lemma npDeleteAux_length_eq {α β : Type} (idxs : List Nat) :
    ∀ (xs : List α) (ys : List β), xs.length = ys.length →
      ∀ s : Nat, (npDeleteAux idxs s xs).length = (npDeleteAux idxs s ys).length := by
  intro xs
  induction xs with
  | nil =>
    intro ys h s
    cases ys with
    | nil => rfl
    | cons y ys => simp at h
  | cons x xs ih =>
    intro ys h s
    cases ys with
    | nil => simp at h
    | cons y ys =>
      simp only [List.length_cons, Nat.add_right_cancel_iff] at h
      rw [npDeleteAux, npDeleteAux]
      by_cases hs : s ∈ idxs
      · rw [if_pos hs, if_pos hs]
        exact ih ys h (s + 1)
      · rw [if_neg hs, if_neg hs]
        simp only [List.length_cons]
        rw [ih ys h (s + 1)]

/-- The length of `np.delete(xs, idxs)` depends only on `xs.length` and
`idxs`: the same index list removes the same positions from every parallel
array. -/
lemma npDelete_length_eq {α β : Type} (xs : List α) (ys : List β) (idxs : List Nat)
    (h : xs.length = ys.length) :
    (npDelete xs idxs).length = (npDelete ys idxs).length :=
  npDeleteAux_length_eq idxs xs ys h 0

/-- The phase-boundary scan marks exactly the pairs `{j, j+1}` with
`1 ≤ j`, `j + 1 ≤ len - 1` and `phase[j] ≠ phase[j+1]`. -/
lemma mem_phaseBoundaryIndices (phase : List String) (i : Nat) :
    i ∈ phaseBoundaryIndices phase ↔
      ∃ j, 1 ≤ j ∧ j + 1 < phase.length ∧
        phase.getD j "" ≠ phase.getD (j + 1) "" ∧ (i = j ∨ i = j + 1) := by
  unfold phaseBoundaryIndices
  rw [List.mem_flatMap]
  constructor
  · rintro ⟨j, hj, hi⟩
    rw [List.mem_range'_1] at hj
    by_cases hne : phase.getD j "" ≠ phase.getD (j + 1) ""
    · rw [if_pos hne] at hi
      refine ⟨j, hj.1, by omega, hne, ?_⟩
      simpa using hi
    · rw [if_neg hne] at hi
      simp at hi
  · rintro ⟨j, h1, h2, hne, hi⟩
    refine ⟨j, ?_, ?_⟩
    · rw [List.mem_range'_1]
      omega
    · rw [if_pos hne]
      rcases hi with hi | hi <;> simp [hi]

/-- All labels identical: no boundary is marked. -/
lemma phaseBoundaryIndices_eq_nil_of_const (phase : List String)
    (hconst : ∀ x ∈ phase, ∀ y ∈ phase, x = y) :
    phaseBoundaryIndices phase = [] := by
  rw [List.eq_nil_iff_forall_not_mem]
  intro i hi
  rw [mem_phaseBoundaryIndices] at hi
  obtain ⟨j, h1, h2, hne, _⟩ := hi
  have hj : j < phase.length := by omega
  have hmem : phase.getD j "" ∈ phase := by
    rw [List.getD_eq_getElem phase "" hj]
    exact phase.getElem_mem hj
  have hmem2 : phase.getD (j + 1) "" ∈ phase := by
    rw [List.getD_eq_getElem phase "" h2]
    exact phase.getElem_mem h2
  exact hne (hconst _ hmem _ hmem2)

/-! ## Data model -/

/-- Parsed response body of one isotherm query: the phase-label column
(read by `np.genfromtxt(..., usecols=[-1])`) and the named numeric columns
the script reads.  The wide response also carries a temperature column,
which the script never reads; it is kept here to state that fact. -/
structure IsothermResponse where
  temperature : List ℚ
  phase : List String
  pressure : List ℚ
  density : List ℚ
  viscosity : List ℚ
  enthalpy : List ℚ
deriving DecidableEq

/-- One output data line: ` {temperature}, {p}, {rho}, {mu}, {h}`. -/
structure PropertyRow where
  temperature : ℚ
  pressure : ℚ
  density : ℚ
  viscosity : ℚ
  enthalpy : ℚ
deriving DecidableEq

/-- The query dict built for one temperature (lines 99-118).  String-valued
entries are kept verbatim; numeric entries (`PLow`, `PHigh`, `PInc`, `T`,
passed through `str(...)` in the script) are kept as numbers.  The dict key
`"Type"` is named `QType` since `Type` is reserved. -/
structure Query where
  Action : String
  Wide : String
  ID : String
  QType : String
  Digits : String
  PLow : ℚ
  PHigh : ℚ
  PInc : ℚ
  T : ℚ
  RefState : String
  TUnit : String
  PUnit : String
  DUnit : String
  HUnit : String
  WUnit : String
  VisUnit : String
  STUnit : String
deriving DecidableEq

/-- Validated command-line configuration (the argparse surface). -/
structure Config where
  minTemp : ℚ
  maxTemp : ℚ
  nTemp : Int
  minPress : ℚ
  maxPress : ℚ
  nPress : Int
  compName : String
deriving DecidableEq

/-- Failure kinds.  The script's only failure path is the `n_press < 2`
check (print + exit), which the design calls `ConfigurationError`.
`UnsupportedComponentError` is the design's name for rejecting an unknown
component name; the script has no corresponding code path. -/
inductive ProgError where
  | ConfigurationError : ProgError
  | UnsupportedComponentError : ProgError
deriving DecidableEq

/-- Observable actions of a run, in program order: one outbound request per
temperature, the header block written once up front (standing for the six
`outFile.write` header lines), and one appended row per surviving sample. -/
inductive Event where
  | networkGet : Query → Event
  | writeHeader : Event
  | writeRow : PropertyRow → Event
deriving DecidableEq

/-! ## Grid Builder -/

/-- Lines 73-77: `delta_temperature = 0` if `n_temp == 1`, else
`(maxTemp - minTemp) / (nTemp - 1)`. -/
def delta_temperature (minTemp maxTemp : ℚ) (nTemp : Int) : ℚ :=
  if nTemp = 1 then 0 else (maxTemp - minTemp) / ((nTemp : ℚ) - 1)

/-- Line 84: `delta_pressure = (maxPress - minPress) / (nPress - 1)`
(computed only after the `n_press < 2` check). -/
def delta_pressure (minPress maxPress : ℚ) (nPress : Int) : ℚ :=
  (maxPress - minPress) / ((nPress : ℚ) - 1)

/-- The temperature grid: `temperature = min_temp + i * delta_temperature`
for `i in range(n_temp)` (line 98). -/
def temperatures (minTemp maxTemp : ℚ) (nTemp : Int) : List ℚ :=
  (List.range nTemp.toNat).map
    (fun i : Nat => minTemp + (i : ℚ) * delta_temperature minTemp maxTemp nTemp)

/-! ## Query Constructor -/

/-- Lines 99-118: the query dict for one temperature.  The component id is
`"C7732185"` if the name equals `"H2O"` and `"C124389"` otherwise. -/
def query (compName : String) (minPress maxPress deltaPressure temperature : ℚ) :
    Query where
  Action := "Data"
  Wide := "on"
  ID := if compName = "H2O" then "C7732185" else "C124389"
  QType := "IsoTherm"
  Digits := "12"
  PLow := minPress
  PHigh := maxPress
  PInc := deltaPressure
  T := temperature
  RefState := "DEF"
  TUnit := "C"
  PUnit := "Pa"
  DUnit := "kg/m3"
  HUnit := "kJ/kg"
  WUnit := "m/s"
  VisUnit := "uPas"
  STUnit := "N/m"

/-! ## Phase-Boundary Filter, Unit Normalizer and row emission -/

/-- Lines 130-145 for one temperature: compute the boundary index list,
`np.delete` it from each value array, rescale viscosity by `1e-6` and
enthalpy by `1000`, and build one row per `zip`ped surviving tuple, using
the loop's current `temperature` (the response's temperature column is
never consulted). -/
def processIsotherm (temperature : ℚ) (resp : IsothermResponse) :
    List PropertyRow :=
  let idxs := phaseBoundaryIndices resp.phase
  let pressure := npDelete resp.pressure idxs
  let density := npDelete resp.density idxs
  let viscosity := (npDelete resp.viscosity idxs).map (fun mu => mu * (1 / 1000000))
  let enthalpy := (npDelete resp.enthalpy idxs).map (fun h => h * 1000)
  (pressure.zip (density.zip (viscosity.zip enthalpy))).map
    (fun x => ⟨temperature, x.1, x.2.1, x.2.2.1, x.2.2.2⟩)

/-! ## Table Assembler -/

/-- The whole run.  The `n_press < 2` check (lines 81-83) fires before the
output file is opened and before the query loop; on success, the header is
written, then for each grid temperature one request is issued and the
surviving rows are appended. -/
def run (cfg : Config) (fetch : ℚ → IsothermResponse) :
    List Event × Except ProgError Unit :=
  if cfg.nPress < 2 then ([], Except.error ProgError.ConfigurationError)
  else
    (Event.writeHeader ::
      (temperatures cfg.minTemp cfg.maxTemp cfg.nTemp).flatMap (fun t =>
        Event.networkGet
            (query cfg.compName cfg.minPress cfg.maxPress
              (delta_pressure cfg.minPress cfg.maxPress cfg.nPress) t) ::
          (processIsotherm t (fetch t)).map Event.writeRow),
     Except.ok ())

/-- Projection of an event trace to the rows it appends. -/
def rowOfEvent : Event → Option PropertyRow
  | Event.writeRow r => some r
  | _ => none

/-! ## Grid Builder lemmas -/

lemma temperatures_getD (m M : ℚ) (n : Int) (i : Nat)
    (h : i < (temperatures m M n).length) :
    (temperatures m M n).getD i 0 = m + (i : ℚ) * delta_temperature m M n := by
  rw [List.getD_eq_getElem _ _ h]
  simp [temperatures]

/-- C5 - the Grid Builder.  With `minTemp < maxTemp` and `nTemp ≥ 2` the
grid has exactly `nTemp` strictly increasing values, uniformly spaced with
step `(maxTemp - minTemp) / (nTemp - 1)`, starting at `minTemp` and ending
at `maxTemp`; with `nTemp = 1` the grid is exactly `[minTemp]` and the step
is `0` (no division by zero is attempted: the divisor branch is skipped). -/
theorem grid_builder_correct (m M : ℚ) (n : Int) :
    (m < M → 2 ≤ n →
      ((temperatures m M n).length : Int) = n ∧
      (temperatures m M n).Pairwise (· < ·) ∧
      (∀ i : Nat, i + 1 < (temperatures m M n).length →
        (temperatures m M n).getD (i + 1) 0 - (temperatures m M n).getD i 0
          = (M - m) / ((n : ℚ) - 1)) ∧
      (temperatures m M n).head? = some m ∧
      (temperatures m M n).getLast? = some M) ∧
    (n = 1 → temperatures m M n = [m] ∧ delta_temperature m M n = 0) := by
  constructor
  · intro hm hn
    have hδeq : delta_temperature m M n = (M - m) / ((n : ℚ) - 1) :=
      if_neg (by omega : ¬ n = 1)
    have hcast : (2 : ℚ) ≤ (n : ℚ) := by exact_mod_cast hn
    have hpos : (0 : ℚ) < (n : ℚ) - 1 := by linarith
    have hne : ((n : ℚ) - 1) ≠ 0 := ne_of_gt hpos
    have hδpos : 0 < delta_temperature m M n := by
      rw [hδeq]
      exact div_pos (sub_pos.2 hm) hpos
    have hlen : (temperatures m M n).length = n.toNat := by
      simp [temperatures]
    refine ⟨?_, ?_, ?_, ?_, ?_⟩
    · rw [hlen]
      exact Int.toNat_of_nonneg (by omega)
    · rw [temperatures, List.pairwise_map]
      refine List.Pairwise.imp ?_ (List.pairwise_lt_range _)
      intro a b hab
      exact add_lt_add_left
        (mul_lt_mul_of_pos_right (by exact_mod_cast hab) hδpos) m
    · intro i hi
      rw [temperatures_getD m M n (i + 1) hi, temperatures_getD m M n i (by omega),
        hδeq]
      push_cast
      ring
    · have h0 : 0 < n.toNat := by omega
      obtain ⟨k, hk⟩ : ∃ k, n.toNat = k + 1 := ⟨n.toNat - 1, by omega⟩
      rw [temperatures, hk, List.range_succ_eq_map]
      simp
    · have h1 : (1 : ℕ) ≤ n.toNat := by omega
      have hb : n.toNat - 1 < (temperatures m M n).length := by
        rw [hlen]
        omega
      have h4 : (temperatures m M n)[n.toNat - 1]? =
          some ((temperatures m M n).getD (n.toNat - 1) 0) := by
        rw [List.getElem?_eq_getElem hb]
        exact congrArg some (List.getD_eq_getElem _ _ hb).symm
      have hlast : (temperatures m M n).getLast? =
          (temperatures m M n)[(temperatures m M n).length - 1]? :=
        List.getLast?_eq_getElem? _
      rw [hlast, hlen, h4, temperatures_getD m M n (n.toNat - 1) hb, hδeq]
      have h2 : ((n.toNat - 1 : ℕ) : ℚ) = (n : ℚ) - 1 := by
        have h3 : ((n.toNat : ℤ) : ℚ) = (n : ℚ) := by
          exact_mod_cast congrArg (fun z : ℤ => (z : ℚ))
            (Int.toNat_of_nonneg (by omega : (0 : ℤ) ≤ n))
        push_cast [Nat.cast_sub h1]
        exact_mod_cast congrArg (fun q : ℚ => q - 1) h3
      rw [h2, mul_comm, div_mul_cancel₀ _ hne]
      norm_num
  · intro hn
    subst hn
    constructor
    · rw [temperatures, show List.range (Int.toNat 1) = [0] from rfl,
        List.map_cons, List.map_nil]
      norm_num [delta_temperature]
    · simp [delta_temperature]

/-- Witness for C5 at `(minTemp, maxTemp, nTemp) = (0, 10, 3)` and the
degenerate grid `(5, 7, 1)`. -/
theorem grid_builder_correct_witness :
    (((temperatures 0 10 3).length : Int) = 3 ∧
      (temperatures 0 10 3).Pairwise (· < ·) ∧
      (∀ i : Nat, i + 1 < (temperatures 0 10 3).length →
        (temperatures 0 10 3).getD (i + 1) 0 - (temperatures 0 10 3).getD i 0
          = (10 - 0) / (((3 : Int) : ℚ) - 1)) ∧
      (temperatures 0 10 3).head? = some 0 ∧
      (temperatures 0 10 3).getLast? = some 10) ∧
    temperatures 5 7 1 = [5] ∧ delta_temperature 5 7 1 = 0 :=
  ⟨(grid_builder_correct 0 10 3).1 (by norm_num) (by decide),
   (grid_builder_correct 5 7 1).2 rfl⟩

/-- C3 - the Phase-Boundary Filter marks exactly the indices `j` and `j+1`
with `j ∈ [1, len-2]` and `phase[j] ≠ phase[j+1]`; the same marked list is
deleted from every parallel array, keeping exactly the unmarked positions
in order; if all labels are identical nothing is removed from any array. -/
theorem phase_boundary_filter_correct (phase : List String) :
    (∀ i : Nat, i ∈ phaseBoundaryIndices phase ↔
      ∃ j, 1 ≤ j ∧ j ≤ phase.length - 2 ∧
        phase.getD j "" ≠ phase.getD (j + 1) "" ∧ (i = j ∨ i = j + 1)) ∧
    (∀ (α : Type) (xs : List α) (d : α),
      npDelete xs (phaseBoundaryIndices phase) =
        ((List.range xs.length).filter
            (fun j => decide (j ∉ phaseBoundaryIndices phase))).map
          (fun j => xs.getD j d)) ∧
    ((∀ x ∈ phase, ∀ y ∈ phase, x = y) →
      phaseBoundaryIndices phase = [] ∧
      ∀ (α : Type) (xs : List α), npDelete xs (phaseBoundaryIndices phase) = xs) := by
  refine ⟨?_, ?_, ?_⟩
  · intro i
    rw [mem_phaseBoundaryIndices]
    constructor
    · rintro ⟨j, h1, h2, h3, h4⟩
      exact ⟨j, h1, by omega, h3, h4⟩
    · rintro ⟨j, h1, h2, h3, h4⟩
      exact ⟨j, h1, by omega, h3, h4⟩
  · intro α xs d
    exact npDelete_eq_filter_range xs (phaseBoundaryIndices phase) d
  · intro hconst
    have h := phaseBoundaryIndices_eq_nil_of_const phase hconst
    refine ⟨h, fun α xs => ?_⟩
    rw [h]
    exact npDelete_nil_idxs xs

/-- Witness for C3: a constant label sequence marks nothing and leaves a
parallel array untouched. -/
theorem phase_boundary_filter_correct_witness :
    phaseBoundaryIndices ["A", "A"] = [] ∧
    npDelete [(3 : ℚ), 4] (phaseBoundaryIndices ["A", "A"]) = [3, 4] := by
  have h := (phase_boundary_filter_correct ["A", "A"]).2.2 (by decide)
  exact ⟨h.1, h.2 ℚ [3, 4]⟩

/-- C2 counterexample: on labels `[A,A,A,B,B,A,A]` the filter does mark
`(2,3)` and `(4,5)`, but removing four of the seven entries leaves the
three labels `[A,A,A]`, not the claimed four `[A,A,A,A]`. -/
theorem phase_boundary_example_counterexample :
    phaseBoundaryIndices ["A", "A", "A", "B", "B", "A", "A"] = [2, 3, 4, 5] ∧
    npDelete ["A", "A", "A", "B", "B", "A", "A"]
        (phaseBoundaryIndices ["A", "A", "A", "B", "B", "A", "A"])
      ≠ ["A", "A", "A", "A"] := by decide

/-- C2 amended: labels `[A,A,A,B,B,A,A]` mark indices `(2,3)` and `(4,5)`;
the kept label sequence is `[A,A,A]` (entries 0, 1 and 6), and every
parallel value array keeps exactly its entries 0, 1 and 6, aligned. -/
theorem phase_boundary_example_amended :
    phaseBoundaryIndices ["A", "A", "A", "B", "B", "A", "A"] = [2, 3, 4, 5] ∧
    npDelete ["A", "A", "A", "B", "B", "A", "A"]
        (phaseBoundaryIndices ["A", "A", "A", "B", "B", "A", "A"])
      = ["A", "A", "A"] ∧
    ∀ (p1 p2 p3 p4 p5 p6 p7 : ℚ),
      npDelete [p1, p2, p3, p4, p5, p6, p7]
          (phaseBoundaryIndices ["A", "A", "A", "B", "B", "A", "A"])
        = [p1, p2, p7] :=
  ⟨by decide, by decide, fun p1 p2 p3 p4 p5 p6 p7 => rfl⟩

/-- C10 - the same marked list is deleted from all four value arrays, so
equal-length inputs give equal-length outputs; on labels `[A,B,C,D]` the
scan marks index 2 twice (`[1,2,2,3]`) yet each array drops it once,
keeping exactly the first entry. -/
theorem parallel_arrays_equal_length (resp : IsothermResponse)
    (h1 : resp.pressure.length = resp.density.length)
    (h2 : resp.density.length = resp.viscosity.length)
    (h3 : resp.viscosity.length = resp.enthalpy.length) :
    ((npDelete resp.pressure (phaseBoundaryIndices resp.phase)).length =
        (npDelete resp.density (phaseBoundaryIndices resp.phase)).length ∧
      (npDelete resp.density (phaseBoundaryIndices resp.phase)).length =
        (npDelete resp.viscosity (phaseBoundaryIndices resp.phase)).length ∧
      (npDelete resp.viscosity (phaseBoundaryIndices resp.phase)).length =
        (npDelete resp.enthalpy (phaseBoundaryIndices resp.phase)).length) ∧
    phaseBoundaryIndices ["A", "B", "C", "D"] = [1, 2, 2, 3] ∧
    (phaseBoundaryIndices ["A", "B", "C", "D"]).count 2 = 2 ∧
    ∀ (a b c d : ℚ),
      npDelete [a, b, c, d] (phaseBoundaryIndices ["A", "B", "C", "D"]) = [a] :=
  ⟨⟨npDelete_length_eq _ _ _ h1, npDelete_length_eq _ _ _ h2,
    npDelete_length_eq _ _ _ h3⟩,
   by decide, by decide, fun a b c d => rfl⟩

/-- Witness for C10 at a concrete parsed response. -/
theorem parallel_arrays_equal_length_witness :
    ((npDelete [(1 : ℚ), 2, 3, 4] (phaseBoundaryIndices ["A", "B", "C", "D"])).length =
        (npDelete [(5 : ℚ), 6, 7, 8] (phaseBoundaryIndices ["A", "B", "C", "D"])).length ∧
      (npDelete [(5 : ℚ), 6, 7, 8] (phaseBoundaryIndices ["A", "B", "C", "D"])).length =
        (npDelete [(9 : ℚ), 10, 11, 12] (phaseBoundaryIndices ["A", "B", "C", "D"])).length ∧
      (npDelete [(9 : ℚ), 10, 11, 12] (phaseBoundaryIndices ["A", "B", "C", "D"])).length =
        (npDelete [(13 : ℚ), 14, 15, 16] (phaseBoundaryIndices ["A", "B", "C", "D"])).length) ∧
    phaseBoundaryIndices ["A", "B", "C", "D"] = [1, 2, 2, 3] ∧
    (phaseBoundaryIndices ["A", "B", "C", "D"]).count 2 = 2 ∧
    ∀ (a b c d : ℚ),
      npDelete [a, b, c, d] (phaseBoundaryIndices ["A", "B", "C", "D"]) = [a] :=
  parallel_arrays_equal_length
    ⟨[], ["A", "B", "C", "D"], [1, 2, 3, 4], [5, 6, 7, 8], [9, 10, 11, 12],
      [13, 14, 15, 16]⟩ rfl rfl rfl

/-! ## Per-isotherm processing lemmas -/

lemma processIsotherm_length (T : ℚ) (resp : IsothermResponse) :
    (processIsotherm T resp).length =
      min (npDelete resp.pressure (phaseBoundaryIndices resp.phase)).length
        (min (npDelete resp.density (phaseBoundaryIndices resp.phase)).length
          (min (npDelete resp.viscosity (phaseBoundaryIndices resp.phase)).length
            (npDelete resp.enthalpy (phaseBoundaryIndices resp.phase)).length)) := by
  simp [processIsotherm]

lemma processIsotherm_temperature (T : ℚ) (resp : IsothermResponse) :
    ∀ r ∈ processIsotherm T resp, r.temperature = T := by
  intro r hr
  simp only [processIsotherm, List.mem_map] at hr
  obtain ⟨x, _, hxr⟩ := hr
  rw [← hxr]

lemma processIsotherm_map_pressure (T : ℚ) (resp : IsothermResponse)
    (h1 : resp.pressure.length = resp.density.length)
    (h2 : resp.density.length = resp.viscosity.length)
    (h3 : resp.viscosity.length = resp.enthalpy.length) :
    (processIsotherm T resp).map PropertyRow.pressure =
      npDelete resp.pressure (phaseBoundaryIndices resp.phase) := by
  have e1 : (npDelete resp.density (phaseBoundaryIndices resp.phase)).length
      = (npDelete resp.pressure (phaseBoundaryIndices resp.phase)).length :=
    npDelete_length_eq _ _ _ h1.symm
  have e2 : (npDelete resp.viscosity (phaseBoundaryIndices resp.phase)).length
      = (npDelete resp.pressure (phaseBoundaryIndices resp.phase)).length :=
    npDelete_length_eq _ _ _ (h2.symm.trans h1.symm)
  have e3 : (npDelete resp.enthalpy (phaseBoundaryIndices resp.phase)).length
      = (npDelete resp.pressure (phaseBoundaryIndices resp.phase)).length :=
    npDelete_length_eq _ _ _ ((h3.symm.trans h2.symm).trans h1.symm)
  simp only [processIsotherm, List.map_map]
  have hfst : (PropertyRow.pressure ∘ fun x : ℚ × (ℚ × (ℚ × ℚ)) =>
      (⟨T, x.1, x.2.1, x.2.2.1, x.2.2.2⟩ : PropertyRow))
      = (Prod.fst : ℚ × (ℚ × (ℚ × ℚ)) → ℚ) := rfl
  rw [hfst]
  apply List.map_fst_zip
  simp [List.length_zip, List.length_map, e1, e2, e3]

/-- C7 - the Unit Normalizer: each output row carries its input pressure and
density unchanged, its viscosity multiplied by exactly `1e-6`, and its
enthalpy multiplied by exactly `1000`; the transform is a total elementwise
map with no fallible path. -/
theorem unit_normalizer_correct (T : ℚ) (resp : IsothermResponse) (i : Nat)
    (h : i < (processIsotherm T resp).length) :
    ((processIsotherm T resp).getD i ⟨0, 0, 0, 0, 0⟩).pressure =
        (npDelete resp.pressure (phaseBoundaryIndices resp.phase)).getD i 0 ∧
    ((processIsotherm T resp).getD i ⟨0, 0, 0, 0, 0⟩).density =
        (npDelete resp.density (phaseBoundaryIndices resp.phase)).getD i 0 ∧
    ((processIsotherm T resp).getD i ⟨0, 0, 0, 0, 0⟩).viscosity =
        (npDelete resp.viscosity (phaseBoundaryIndices resp.phase)).getD i 0
          * (1 / 1000000) ∧
    ((processIsotherm T resp).getD i ⟨0, 0, 0, 0, 0⟩).enthalpy =
        (npDelete resp.enthalpy (phaseBoundaryIndices resp.phase)).getD i 0
          * 1000 := by
  have hb := h
  rw [processIsotherm_length T resp, lt_min_iff, lt_min_iff, lt_min_iff] at hb
  obtain ⟨hP, hD, hV, hH⟩ := hb
  rw [List.getD_eq_getElem _ _ h, List.getD_eq_getElem _ _ hP,
    List.getD_eq_getElem _ _ hD, List.getD_eq_getElem _ _ hV,
    List.getD_eq_getElem _ _ hH]
  simp [processIsotherm, List.getElem_zip]

/-- Witness for C7 at a concrete two-sample single-phase response. -/
theorem unit_normalizer_correct_witness :
    ((processIsotherm 3 ⟨[1, 2], ["a", "a"], [10, 20], [30, 40], [50, 60],
          [70, 80]⟩).getD 0 ⟨0, 0, 0, 0, 0⟩).pressure =
        (npDelete [(10 : ℚ), 20] (phaseBoundaryIndices ["a", "a"])).getD 0 0 ∧
    ((processIsotherm 3 ⟨[1, 2], ["a", "a"], [10, 20], [30, 40], [50, 60],
          [70, 80]⟩).getD 0 ⟨0, 0, 0, 0, 0⟩).density =
        (npDelete [(30 : ℚ), 40] (phaseBoundaryIndices ["a", "a"])).getD 0 0 ∧
    ((processIsotherm 3 ⟨[1, 2], ["a", "a"], [10, 20], [30, 40], [50, 60],
          [70, 80]⟩).getD 0 ⟨0, 0, 0, 0, 0⟩).viscosity =
        (npDelete [(50 : ℚ), 60] (phaseBoundaryIndices ["a", "a"])).getD 0 0
          * (1 / 1000000) ∧
    ((processIsotherm 3 ⟨[1, 2], ["a", "a"], [10, 20], [30, 40], [50, 60],
          [70, 80]⟩).getD 0 ⟨0, 0, 0, 0, 0⟩).enthalpy =
        (npDelete [(70 : ℚ), 80] (phaseBoundaryIndices ["a", "a"])).getD 0 0
          * 1000 :=
  unit_normalizer_correct 3
    ⟨[1, 2], ["a", "a"], [10, 20], [30, 40], [50, 60], [70, 80]⟩ 0 (by decide)

/-- C4 counterexample: a response whose first two samples are a
phase-boundary duplicate pair (different phases, same pressure) is not
caught by the scan, which starts at `j = 1`; both rows survive and share a
pressure, so the claimed invariant fails. -/
theorem no_duplicate_pressure_counterexample :
    (⟨[0, 0, 0], ["liquid", "vapor", "vapor"], [1, 1, 2], [1, 2, 3],
        [4, 5, 6], [7, 8, 9]⟩ : IsothermResponse).phase.getD 0 "" ≠
      (⟨[0, 0, 0], ["liquid", "vapor", "vapor"], [1, 1, 2], [1, 2, 3],
        [4, 5, 6], [7, 8, 9]⟩ : IsothermResponse).phase.getD 1 "" ∧
    (⟨[0, 0, 0], ["liquid", "vapor", "vapor"], [1, 1, 2], [1, 2, 3],
        [4, 5, 6], [7, 8, 9]⟩ : IsothermResponse).pressure.getD 0 0 =
      (⟨[0, 0, 0], ["liquid", "vapor", "vapor"], [1, 1, 2], [1, 2, 3],
        [4, 5, 6], [7, 8, 9]⟩ : IsothermResponse).pressure.getD 1 0 ∧
    ¬ ((processIsotherm 40
          (⟨[0, 0, 0], ["liquid", "vapor", "vapor"], [1, 1, 2], [1, 2, 3],
            [4, 5, 6], [7, 8, 9]⟩ : IsothermResponse)).map
        PropertyRow.pressure).Nodup := by decide

/-- C4 amended: provided every repeated pressure value occurs only as an
adjacent duplicate pair `(i, i+1)` at a phase boundary with `i` inside the
scan range (`1 ≤ i`), the filtered rows of one temperature carry pairwise
distinct pressures.  (A duplicate pair at the very first two samples
escapes the scan and survives, so the unconditional claim is false.) -/
theorem no_duplicate_pressure_amended (T : ℚ) (resp : IsothermResponse)
    (hlp : resp.phase.length = resp.pressure.length)
    (h1 : resp.pressure.length = resp.density.length)
    (h2 : resp.density.length = resp.viscosity.length)
    (h3 : resp.viscosity.length = resp.enthalpy.length)
    (hadj : ∀ i < resp.pressure.length, ∀ k < resp.pressure.length, i < k →
      resp.pressure.getD i 0 = resp.pressure.getD k 0 → k = i + 1)
    (hbnd : ∀ i < resp.pressure.length, ∀ k < resp.pressure.length, i < k →
      resp.pressure.getD i 0 = resp.pressure.getD k 0 →
        resp.phase.getD i "" ≠ resp.phase.getD k "")
    (hint : ∀ i < resp.pressure.length, ∀ k < resp.pressure.length, i < k →
      resp.pressure.getD i 0 = resp.pressure.getD k 0 → 1 ≤ i) :
    ((processIsotherm T resp).map PropertyRow.pressure).Nodup := by
  rw [processIsotherm_map_pressure T resp h1 h2 h3,
    npDelete_eq_filter_range resp.pressure (phaseBoundaryIndices resp.phase) 0,
    List.Nodup, List.pairwise_map]
  have hK : (((List.range resp.pressure.length).filter
      (fun j => decide (j ∉ phaseBoundaryIndices resp.phase)))).Pairwise (· < ·) :=
    List.Pairwise.filter _ (List.pairwise_lt_range _)
  refine hK.imp_of_mem ?_
  intro a b ha hb hab heq
  simp only [List.mem_filter, List.mem_range, decide_eq_true_eq] at ha hb
  have hk := hadj a ha.1 b hb.1 hab heq
  have hne := hbnd a ha.1 b hb.1 hab heq
  have hone := hint a ha.1 b hb.1 hab heq
  apply ha.2
  rw [mem_phaseBoundaryIndices]
  subst hk
  exact ⟨a, hone, by omega, hne, Or.inl rfl⟩

/-- Witness for C4 amended: an interior boundary duplicate pair is removed
and the surviving pressures are distinct. -/
theorem no_duplicate_pressure_amended_witness :
    ((processIsotherm 10
        (⟨[0, 0, 0, 0], ["l", "l", "v", "v"], [1, 2, 2, 3], [1, 2, 3, 4],
          [5, 6, 7, 8], [9, 10, 11, 12]⟩ : IsothermResponse)).map
      PropertyRow.pressure).Nodup :=
  no_duplicate_pressure_amended 10
    ⟨[0, 0, 0, 0], ["l", "l", "v", "v"], [1, 2, 2, 3], [1, 2, 3, 4],
      [5, 6, 7, 8], [9, 10, 11, 12]⟩
    rfl rfl rfl rfl (by decide) (by decide) (by decide)

/-! ## Run-level lemmas -/

lemma filterMap_flatMap {α β γ : Type} (l : List α) (f : α → List β)
    (g : β → Option γ) :
    (l.flatMap f).filterMap g = l.flatMap (fun a => (f a).filterMap g) := by
  induction l with
  | nil => rfl
  | cons x xs ih => simp [List.flatMap_cons, List.filterMap_append, ih]

/-- C6 - an `nPress < 2` configuration makes the run fail with
`ConfigurationError` with an empty event trace: no network request is
issued and no output (header or row) is written; with `nPress ≥ 2` the
pressure increment carried by every issued query equals
`(maxPress - minPress) / (nPress - 1)`. -/
theorem config_error_before_io (cfg : Config) (fetch : ℚ → IsothermResponse) :
    (cfg.nPress < 2 →
      run cfg fetch = ([], Except.error ProgError.ConfigurationError)) ∧
    (2 ≤ cfg.nPress →
      delta_pressure cfg.minPress cfg.maxPress cfg.nPress
          = (cfg.maxPress - cfg.minPress) / ((cfg.nPress : ℚ) - 1) ∧
      ∀ q : Query, Event.networkGet q ∈ (run cfg fetch).1 →
        q.PInc = (cfg.maxPress - cfg.minPress) / ((cfg.nPress : ℚ) - 1)) := by
  constructor
  · intro h
    rw [run, if_pos h]
  · intro h
    refine ⟨rfl, ?_⟩
    intro q hq
    rw [run, if_neg (by omega)] at hq
    rcases List.mem_cons.mp hq with h1 | h1
    · simp at h1
    · rw [List.mem_flatMap] at h1
      obtain ⟨t, _, hin⟩ := h1
      rcases List.mem_cons.mp hin with h2 | h2
      · rw [Event.networkGet.injEq] at h2
        rw [h2]
        rfl
      · rw [List.mem_map] at h2
        obtain ⟨r, _, h3⟩ := h2
        simp at h3

/-- Witness for C6: `nPress = 1` aborts with an empty trace; `nPress = 3`
gives increment `(1000000 - 100000) / 2`. -/
theorem config_error_before_io_witness :
    run ⟨0, 100, 2, 100000, 1000000, 1, "H2O"⟩
        (fun _ => ⟨[], [], [], [], [], []⟩)
      = ([], Except.error ProgError.ConfigurationError) ∧
    delta_pressure 100000 1000000 3
      = (1000000 - 100000) / (((3 : Int) : ℚ) - 1) :=
  ⟨(config_error_before_io ⟨0, 100, 2, 100000, 1000000, 1, "H2O"⟩
      (fun _ => ⟨[], [], [], [], [], []⟩)).1 (by decide),
   ((config_error_before_io ⟨0, 100, 2, 100000, 1000000, 3, "H2O"⟩
      (fun _ => ⟨[], [], [], [], [], []⟩)).2 (by decide)).1⟩

/-- C1 counterexample: component name `"N2"` is not rejected.  The
constructed query carries the carbon-dioxide identifier `C124389`, the run
completes successfully, and a network request is issued - so no
`UnsupportedComponentError` is raised before (or instead of) network
activity. -/
theorem unsupported_component_counterexample :
    (query "N2" 1 2 1 0).ID = "C124389" ∧
    (run ⟨0, 0, 1, 1, 2, 2, "N2"⟩ (fun _ => ⟨[], [], [], [], [], []⟩)).2
      = Except.ok () ∧
    Event.networkGet (query "N2" 1 2 1 0) ∈
      (run ⟨0, 0, 1, 1, 2, 2, "N2"⟩ (fun _ => ⟨[], [], [], [], [], []⟩)).1 := by
  refine ⟨rfl, rfl, ?_⟩
  have htr : (run ⟨0, 0, 1, 1, 2, 2, "N2"⟩
      (fun _ => ⟨[], [], [], [], [], []⟩)).1
      = [Event.writeHeader, Event.networkGet (query "N2" 1 2 1 0)] := by
    have ht : temperatures 0 0 1 = [0] := by
      rw [temperatures, show List.range (Int.toNat 1) = [0] from rfl,
        List.map_cons, List.map_nil]
      norm_num [delta_temperature]
    rw [run]
    rw [if_neg (by decide : ¬ ((2 : Int) < 2))]
    simp only [ht, List.flatMap_cons, List.flatMap_nil, processIsotherm, npDelete,
      npDeleteAux, List.zip_nil_right, List.map_nil, List.append_nil, List.nil_append]
    simp only [query, delta_pressure, Query.mk.injEq, List.cons.injEq,
      Event.networkGet.injEq]
    norm_num
  rw [htr]
  simp

/-- C1 amended: the script never raises `UnsupportedComponentError`; for
every component name other than `"H2O"` (for example `"N2"`) the Query
Constructor silently uses the carbon-dioxide identifier `"C124389"` and a
valid run completes successfully, issuing its network requests. -/
theorem unsupported_component_amended (cfg : Config)
    (fetch : ℚ → IsothermResponse) (hname : cfg.compName ≠ "H2O")
    (hp : 2 ≤ cfg.nPress) :
    (run cfg fetch).2 = Except.ok () ∧
    ∀ minP maxP dP t : ℚ, (query cfg.compName minP maxP dP t).ID = "C124389" := by
  constructor
  · rw [run, if_neg (by omega)]
  · intro minP maxP dP t
    exact if_neg hname

/-- Witness for C1 amended at component name `"h2o"` (case-sensitive
mismatch with `"H2O"`). -/
theorem unsupported_component_amended_witness :
    (run ⟨5, 5, 1, 3, 4, 2, "h2o"⟩ (fun _ => ⟨[], [], [], [], [], []⟩)).2
      = Except.ok () ∧
    ∀ minP maxP dP t : ℚ, (query "h2o" minP maxP dP t).ID = "C124389" :=
  unsupported_component_amended ⟨5, 5, 1, 3, 4, 2, "h2o"⟩
    (fun _ => ⟨[], [], [], [], [], []⟩) (by decide) (by decide)

/-- C9 - for every component name other than exactly `"H2O"` the query's
`ID` parameter is the carbon-dioxide identifier `"C124389"`, and a run with
a valid grid proceeds to issue a network request carrying that identifier. -/
theorem co2_id_fallback (cfg : Config) (fetch : ℚ → IsothermResponse)
    (hname : cfg.compName ≠ "H2O") (hp : 2 ≤ cfg.nPress) (ht : 1 ≤ cfg.nTemp) :
    (∀ minP maxP dP t : ℚ, (query cfg.compName minP maxP dP t).ID = "C124389") ∧
    ∃ q : Query, Event.networkGet q ∈ (run cfg fetch).1 ∧ q.ID = "C124389" := by
  have hID : ∀ minP maxP dP t : ℚ,
      (query cfg.compName minP maxP dP t).ID = "C124389" :=
    fun _ _ _ _ => if_neg hname
  refine ⟨hID, ?_⟩
  refine ⟨query cfg.compName cfg.minPress cfg.maxPress
    (delta_pressure cfg.minPress cfg.maxPress cfg.nPress)
    (cfg.minTemp + ((0 : ℕ) : ℚ)
      * delta_temperature cfg.minTemp cfg.maxTemp cfg.nTemp), ?_, hID _ _ _ _⟩
  rw [run, if_neg (by omega)]
  apply List.mem_cons_of_mem
  rw [List.mem_flatMap]
  refine ⟨cfg.minTemp + ((0 : ℕ) : ℚ)
    * delta_temperature cfg.minTemp cfg.maxTemp cfg.nTemp, ?_,
    List.mem_cons_self _ _⟩
  exact List.mem_map_of_mem _ (List.mem_range.mpr (by omega))

/-- Witness for C9 at component name `"N2"`. -/
theorem co2_id_fallback_witness :
    (∀ minP maxP dP t : ℚ, (query "N2" minP maxP dP t).ID = "C124389") ∧
    ∃ q : Query, Event.networkGet q ∈
        (run ⟨0, 0, 1, 1, 2, 2, "N2"⟩ (fun _ => ⟨[], [], [], [], [], []⟩)).1 ∧
      q.ID = "C124389" :=
  co2_id_fallback ⟨0, 0, 1, 1, 2, 2, "N2"⟩ (fun _ => ⟨[], [], [], [], [], []⟩)
    (by decide) (by decide) (by decide)

/-- C8 - the Table Assembler: the rows appended by a successful run are
exactly the per-temperature blocks concatenated in grid order
(temperature-major); every row of a block carries the grid's current
temperature (whatever the response contains, its temperature column
included); and within one temperature the row pressures are exactly the
post-filter pressure sequence, in the service's order. -/
theorem table_assembler_correct (cfg : Config) (fetch : ℚ → IsothermResponse)
    (hp : 2 ≤ cfg.nPress) :
    ((run cfg fetch).1.filterMap rowOfEvent =
      (temperatures cfg.minTemp cfg.maxTemp cfg.nTemp).flatMap
        (fun t => processIsotherm t (fetch t))) ∧
    (∀ (t : ℚ) (resp : IsothermResponse) (r : PropertyRow),
      r ∈ processIsotherm t resp → r.temperature = t) ∧
    (∀ (t : ℚ) (resp : IsothermResponse),
      resp.pressure.length = resp.density.length →
      resp.density.length = resp.viscosity.length →
      resp.viscosity.length = resp.enthalpy.length →
      (processIsotherm t resp).map PropertyRow.pressure =
        npDelete resp.pressure (phaseBoundaryIndices resp.phase)) := by
  refine ⟨?_, fun t resp r hr => processIsotherm_temperature t resp r hr,
    fun t resp h1 h2 h3 => processIsotherm_map_pressure t resp h1 h2 h3⟩
  rw [run, if_neg (by omega)]
  rw [show ((Event.writeHeader ::
      (temperatures cfg.minTemp cfg.maxTemp cfg.nTemp).flatMap (fun t =>
        Event.networkGet
            (query cfg.compName cfg.minPress cfg.maxPress
              (delta_pressure cfg.minPress cfg.maxPress cfg.nPress) t) ::
          (processIsotherm t (fetch t)).map Event.writeRow),
     Except.ok ()) : List Event × Except ProgError Unit).1
    = Event.writeHeader ::
      (temperatures cfg.minTemp cfg.maxTemp cfg.nTemp).flatMap (fun t =>
        Event.networkGet
            (query cfg.compName cfg.minPress cfg.maxPress
              (delta_pressure cfg.minPress cfg.maxPress cfg.nPress) t) ::
          (processIsotherm t (fetch t)).map Event.writeRow) from rfl]
  rw [List.filterMap_cons_none (rfl : rowOfEvent Event.writeHeader = none)]
  rw [filterMap_flatMap]
  congr 1
  funext t
  rw [List.filterMap_cons_none (rfl : rowOfEvent (Event.networkGet _) = none)]
  rw [List.filterMap_map]
  rw [show (rowOfEvent ∘ Event.writeRow) = some from rfl, List.filterMap_some]

/-- Witness for C8 at a two-temperature grid fed by an empty response. -/
theorem table_assembler_correct_witness :
    (run ⟨0, 10, 2, 1, 2, 2, "H2O"⟩
        (fun _ => ⟨[], [], [], [], [], []⟩)).1.filterMap rowOfEvent
      = (temperatures 0 10 2).flatMap
          (fun t => processIsotherm t ⟨[], [], [], [], [], []⟩) :=
  (table_assembler_correct ⟨0, 10, 2, 1, 2, 2, "H2O"⟩
    (fun _ => ⟨[], [], [], [], [], []⟩) (by decide)).1

end MakeComponentTable
